import Mathlib

/-!
Verification of the Priston Tale potion-bot core: the sensing engine
(`app/bar_selector.py`), the target-zone geometry
(`app/target_zone_selector.py`) and the reaction controller
(`app/ui/bot_controller.py`), shallowly embedded over exact arithmetic
(`ℕ`/`ℤ`/`ℚ` in place of machine integers and floats).  Randomness is
embedded by passing the drawn values (or draw streams) as explicit
arguments, constrained in theorems by the distributions' supports.
-/

namespace PristonBot

/-! ### Sensing engine — `BarDetector.detect_percentage` (bar_selector.py) -/

/-- A pixel, three 8-bit channels (RGB before conversion, HSV after). -/
abbrev Pixel := ℕ × ℕ × ℕ

/-- An image as a list of pixel rows (the PIL image / numpy array). -/
abbrev Img := List (List Pixel)

/-- Shape validation performed implicitly by `np.array` + `cv2.cvtColor`:
an empty or ragged buffer makes the conversion raise. -/
def checkShape (img : Img) : Except String (ℕ × ℕ) :=
  match img with
  | [] => Except.error "empty image"
  | r :: rs =>
    if r.length = 0 then Except.error "zero width image"
    else if rs.all (fun row => row.length = r.length) then
      Except.ok (rs.length + 1, r.length)
    else Except.error "ragged image"

/-- Pixel-wise RGB→HSV conversion modelling `cv2.cvtColor(..., COLOR_RGB2HSV)`
on 8-bit data (V = max channel, S = 255·diff/V, H in 0..179), with integer
division in place of cv2's rounding. -/
def rgbToHsv (p : Pixel) : Pixel :=
  let r := p.1
  let g := p.2.1
  let b := p.2.2
  let v := max r (max g b)
  let mn := min r (min g b)
  let diff := v - mn
  let s := if v = 0 then 0 else (255 * diff) / v
  let h : ℤ :=
    if diff = 0 then 0
    else if v = r then (30 * ((g : ℤ) - (b : ℤ))) / (diff : ℤ)
    else if v = g then 60 + (30 * ((b : ℤ) - (r : ℤ))) / (diff : ℤ)
    else 120 + (30 * ((r : ℤ) - (g : ℤ))) / (diff : ℤ)
  ((h % 180).toNat, s, v)

/-- Componentwise bound test of `cv2.inRange`. -/
def inRangePx (lo hi p : Pixel) : Bool :=
  decide (lo.1 ≤ p.1 ∧ p.1 ≤ hi.1 ∧ lo.2.1 ≤ p.2.1 ∧ p.2.1 ≤ hi.2.1 ∧
    lo.2.2 ≤ p.2.2 ∧ p.2.2 ≤ hi.2.2)

/-- Mask lookup with a default for out-of-bounds coordinates (the border
convention of cv2's morphology: `true` for erosion, `false` for dilation). -/
def maskGet (m : List (List Bool)) (dflt : Bool) (i j : ℤ) : Bool :=
  if 0 ≤ i ∧ 0 ≤ j then (m.getD i.toNat []).getD j.toNat dflt else dflt

/-- 3×3 erosion (`cv2.erode` with `np.ones((3,3))`). -/
def erode (m : List (List Bool)) : List (List Bool) :=
  (List.range m.length).map (fun i =>
    (List.range (m.headD []).length).map (fun j =>
      (([-1, 0, 1] : List ℤ)).all (fun di =>
        (([-1, 0, 1] : List ℤ)).all (fun dj =>
          maskGet m true ((i : ℤ) + di) ((j : ℤ) + dj)))))

/-- 3×3 dilation (`cv2.dilate` with `np.ones((3,3))`). -/
def dilate (m : List (List Bool)) : List (List Bool) :=
  (List.range m.length).map (fun i =>
    (List.range (m.headD []).length).map (fun j =>
      (([-1, 0, 1] : List ℤ)).any (fun di =>
        (([-1, 0, 1] : List ℤ)).any (fun dj =>
          maskGet m false ((i : ℤ) + di) ((j : ℤ) + dj)))))

/-- `cv2.morphologyEx(mask, cv2.MORPH_OPEN, kernel)`. -/
def morphOpen (m : List (List Bool)) : List (List Bool) := dilate (erode m)

/-- `cv2.morphologyEx(mask, cv2.MORPH_CLOSE, kernel)`. -/
def morphClose (m : List (List Bool)) : List (List Bool) := erode (dilate m)

/-- Number of set pixels in one row (`np.count_nonzero(mask, axis=1)` entry). -/
def rowCount (row : List Bool) : ℕ := (row.filter id).length

/-- Whether row `i` of the mask contains any set pixel
(`row_counts[i] > 0`). -/
def rowHasPixel (mask : List (List Bool)) (i : ℕ) : Bool :=
  decide (0 < rowCount (mask.getD i []))

/-- Number of set pixels in column `j`
(`np.count_nonzero(mask, axis=0)` entry). -/
def colCount (mask : List (List Bool)) (j : ℕ) : ℕ :=
  (mask.filter (fun row => row.getD j false)).length

/-- Whether column `j` of the mask contains any set pixel. -/
def colHasPixel (mask : List (List Bool)) (j : ℕ) : Bool :=
  decide (0 < colCount mask j)

/-- Orientation test `is_vertical = height > width * 1.5`. -/
def is_vertical (height width : ℕ) : Bool :=
  decide ((width : ℚ) * 1.5 < (height : ℚ))

/-- Percentage computation on the cleaned binary mask
(bar_selector.py lines 279–311): vertical bars measure from the topmost
set row, horizontal bars from the rightmost set column; an all-clear mask
yields 0. -/
def maskPercentage (mask : List (List Bool)) : ℚ :=
  let height := mask.length
  let width := (mask.headD []).length
  if is_vertical height width then
    let filledRows := (List.range height).filter (fun i => rowHasPixel mask i)
    match filledRows.min? with
    | none => 0
    | some highest_point => 100 * ((height : ℚ) - (highest_point : ℚ)) / (height : ℚ)
  else
    let filledCols := (List.range width).filter (fun j => colHasPixel mask j)
    match filledCols.max? with
    | none => 0
    | some rightmost_point => 100 * (rightmost_point : ℚ) / (width : ℚ)

/-- The fallible processing pipeline inside the `try` block of
`detect_percentage`: shape validation (numpy/cv2 conversion), HSV
conversion, `inRange` masking, open/close morphology, percentage. -/
def detectCore (img : Img) (lo hi : Pixel) : Except String ℚ := do
  let _ ← checkShape img
  let hsv := img.map (List.map rgbToHsv)
  let mask := hsv.map (List.map (inRangePx lo hi))
  let cleaned := morphClose (morphOpen mask)
  pure (maskPercentage cleaned)

/-- `BarDetector.detect_percentage`: the whole pipeline runs inside
`try/except`; any processing error is swallowed and 100 is returned
(fail toward a full bar, never toward spurious potion use). -/
def detect_percentage (img : Img) (lo hi : Pixel) : ℚ :=
  match detectCore img lo hi with
  | Except.ok p => p
  | Except.error _ => 100

/-- HSV range for the health bar (`HEALTH_COLOR_RANGE`). -/
def HEALTH_COLOR_RANGE : Pixel × Pixel := ((0, 100, 100), (10, 255, 255))

/-! ### Cooldown gate — `bot_loop` potion/spell timers (bot_controller.py) -/

/-- One cooldown timer of the bot loop: `potion_cooldown` (or the spell
interval) together with the `last_*` timestamp, which the code initializes
to `0` rather than to an explicit "unset" marker. -/
structure CooldownGate where
  cooldown : ℚ
  last : ℚ
  deriving DecidableEq, Repr

/-- The gate test-and-set of one tick: fire iff
`current_time - last > cooldown` (strict), recording the trigger time on
success (bot_controller.py lines 712–717 and analogues). -/
def tryTrigger (g : CooldownGate) (now : ℚ) : Bool × CooldownGate :=
  if g.cooldown < now - g.last then (true, { g with last := now }) else (false, g)

/-- The times at which the gate fires over a sequence of call times. -/
def fires (g : CooldownGate) : List ℚ → List ℚ
  | [] => []
  | t :: ts =>
    match tryTrigger g t with
    | (true, g') => t :: fires g' ts
    | (false, g') => fires g' ts

/-! ### Target zone — `TargetZoneSelector` (target_zone_selector.py) -/

/-- The selector's state: the four saved coordinates (`None` before any
selection), the configured flag, the stored target points and the point
count. -/
structure TargetZone where
  x1 : Option ℤ
  y1 : Option ℤ
  x2 : Option ℤ
  y2 : Option ℤ
  is_configured : Bool
  target_points : List (ℤ × ℤ)
  num_target_points : ℕ
  deriving DecidableEq, Repr

/-- The freshly constructed selector (`__init__`). -/
def initZone : TargetZone := ⟨none, none, none, none, false, [], 8⟩

/-- Python truthiness of a stored coordinate: `None` and `0` are falsy. -/
def truthy : Option ℤ → Bool
  | none => false
  | some n => decide (n ≠ 0)

/-- The guard `all([self.x1, self.y1, self.x2, self.y2])` used by both
`generate_target_points` and `get_random_target`. -/
def coordsSet (s : TargetZone) : Bool :=
  truthy s.x1 && truthy s.y1 && truthy s.x2 && truthy s.y2

/-- Python `int()` conversion of a real value: truncation toward zero. -/
def pyInt (q : ℚ) : ℤ := if 0 ≤ q then ⌊q⌋ else ⌈q⌉

/-- `generate_target_points`, parametrized by the random draws: for point
`i`, `draws i = (cos angle_i, sin angle_i, u_i)` with
`angle_i ~ Uniform(-135°, 135°)` and `u_i ~ Uniform(0.7, 1.0)`.  Each raw
point is clamped into the zone rectangle; a zone whose guard
`all([x1,y1,x2,y2])` fails is left untouched. -/
def generate_target_points (s : TargetZone) (draws : ℕ → ℚ × ℚ × ℚ) : TargetZone :=
  if !coordsSet s then s
  else
    let a := s.x1.getD 0
    let b := s.y1.getD 0
    let c := s.x2.getD 0
    let d := s.y2.getD 0
    let width := c - a
    let height := d - b
    let center_x := (a + c).fdiv 2
    let center_y := (b + d).fdiv 2
    let radius : ℚ := ((min width height : ℤ) : ℚ) * (2 / 5)
    let pts := (List.range s.num_target_points).map (fun i =>
      let dr := draws i
      let rand_radius := radius * dr.2.2
      let x := center_x + pyInt (rand_radius * dr.1)
      let y := center_y + pyInt (rand_radius * dr.2.1)
      (max a (min x c), max b (min y d)))
    { s with target_points := pts }

/-- `configure_from_saved`: install the coordinates, mark configured, and
either adopt a provided non-empty point list as-is or regenerate. -/
def configure_from_saved (s : TargetZone) (a b c d : ℤ)
    (saved : Option (List (ℤ × ℤ))) (draws : ℕ → ℚ × ℚ × ℚ) : TargetZone :=
  let s' := { s with x1 := some a, y1 := some b, x2 := some c, y2 := some d,
                     is_configured := true }
  match saved with
  | some ps =>
    if 0 < ps.length then { s' with target_points := ps }
    else generate_target_points s' draws
  | none => generate_target_points s' draws

/-- `get_random_target`, parametrized by the draws: `choice` indexes the
stored point list (`random.choice`), and `(rx, ry)` are the
`random.randint(x1, x2)` / `random.randint(y1, y2)` fallback draws. -/
def get_random_target (s : TargetZone) (choice : ℕ) (rx ry : ℤ) : Option (ℤ × ℤ) :=
  if 0 < s.target_points.length then
    some (s.target_points.getD (choice % s.target_points.length) (0, 0))
  else if !coordsSet s then none
  else some (rx, ry)

/-! ### Resource monitor and tick fragments — `bot_loop` (bot_controller.py) -/

/-- `has_value_changed(prev_val, current_val, threshold)`:
`abs(prev_val - current_val) >= threshold`. -/
def has_value_changed (prev_val current_val threshold : ℚ) : Bool :=
  decide (threshold ≤ |prev_val - current_val|)

/-- One reading per tracked resource. -/
structure Readings where
  hp : ℚ
  mp : ℚ
  sp : ℚ
  deriving DecidableEq, Repr

/-- Percentage obtained for one bar in a tick: initialized to 100, replaced
by the detector's output only when the bar is configured and the capture
yielded an image (bot_loop lines 663–686). -/
def barPercent (configured : Bool) (img : Option Img) (lo hi : Pixel) : ℚ :=
  match configured, img with
  | true, some image => detect_percentage image lo hi
  | true, none => 100
  | false, _ => 100

/-- The potion trigger condition of one bar in a tick:
`percent < threshold and current_time - last > cooldown`. -/
def potionFire (percent threshold now last cooldown : ℚ) : Bool :=
  decide (percent < threshold ∧ cooldown < now - last)

/-- One bar's slice of the tick: compute the percentage, and fire/record
the cooldown exactly as lines 671–721 do. -/
def barTick (configured : Bool) (img : Option Img) (lo hi : Pixel)
    (threshold now last cooldown : ℚ) : ℚ × Bool × ℚ :=
  let percent := barPercent configured img lo hi
  if percent < threshold ∧ cooldown < now - last then (percent, true, now)
  else (percent, false, last)

/-- The hysteresis step of one tick (bot_loop lines 688–709): the three
change flags, and the stored previous values, which are overwritten with
the raw readings when (and only when) at least one flag is set. -/
def monitorTick (prev news : Readings) : Readings × (Bool × Bool × Bool) :=
  let hp_changed := has_value_changed prev.hp news.hp (1 / 2)
  let mp_changed := has_value_changed prev.mp news.mp (1 / 2)
  let sp_changed := has_value_changed prev.sp news.sp (1 / 2)
  (if hp_changed || mp_changed || sp_changed then news else prev,
   (hp_changed, mp_changed, sp_changed))

/-- Hysteresis and triggering of one tick together: the stored values come
from `monitorTick`, the three fire decisions from the raw readings. -/
def loopTick (prev news thresholds lasts : Readings) (now cooldown : ℚ) :
    Readings × (Bool × Bool × Bool) × (Bool × Bool × Bool) :=
  let m := monitorTick prev news
  (m.1, m.2,
   (potionFire news.hp thresholds.hp now lasts.hp cooldown,
    potionFire news.mp thresholds.mp now lasts.mp cooldown,
    potionFire news.sp thresholds.sp now lasts.sp cooldown))

/-! ### Ring targeting — `generate_random_target_offsets` and the cast
target computation (bot_controller.py lines 466–485 and 805–818) -/

/-- `generate_random_target_offsets(radius)`, parametrized by the draws:
`sqrtU = sqrt(random.random())` and `(cosA, sinA) = (cos angle, sin angle)`
for `angle ~ Uniform(0, 2π)`; the offsets are `int()`-truncated. -/
def generate_random_target_offsets (radius sqrtU cosA sinA : ℚ) : ℤ × ℤ :=
  let distance := radius * sqrtU
  (pyInt (distance * cosA), pyInt (distance * sinA))

/-- `max(lo, min(x, hi))`, the per-axis clamp of lines 817–818. -/
def clampZ (lo x hi : ℤ) : ℤ := max lo (min x hi)

/-- Absolute cast target: game-window centre (Python `//` floor division)
plus the ring offset, clamped into the window rectangle on each axis
independently. -/
def ringTarget (gx1 gy1 gx2 gy2 dx dy : ℤ) : ℤ × ℤ :=
  let center_x := (gx1 + gx2).fdiv 2
  let center_y := (gy1 + gy2).fdiv 2
  (clampZ gx1 (center_x + dx) gx2, clampZ gy1 (center_y + dy) gy2)

/-! ### Loop failure containment — `bot_loop`'s while/try/except skeleton -/

/-- Observable effect of one loop iteration: whether an exception was
caught and logged at the tick boundary, and whether the 1-second backoff
sleep was taken. -/
structure IterEffect where
  caught : Bool
  backoff : Bool
  deriving DecidableEq, Repr

/-- The `while self.running: try: ... except: log; sleep(1)` skeleton,
over an external running flag and a tick outcome per iteration, with fuel
bounding the observation window.  Returns the iteration effects and
whether the loop exited (which it does only by observing a false flag). -/
def bot_loop_run (running : ℕ → Bool) (tick : ℕ → Except String Unit) :
    ℕ → ℕ → List IterEffect × Bool
  | 0, _ => ([], false)
  | fuel + 1, i =>
    if running i then
      let eff : IterEffect :=
        match tick i with
        | Except.ok _ => ⟨false, false⟩
        | Except.error _ => ⟨true, true⟩
      let rest := bot_loop_run running tick fuel (i + 1)
      (eff :: rest.1, rest.2)
    else ([], true)

/-! ### Controller lifecycle — `start_bot` / `stop_bot` -/

/-- The controller fields touched by `start_bot`/`stop_bot`, plus one
untouched monitor field to witness that no-ops modify nothing. -/
structure BotUIState where
  running : Bool
  hp_potions_used : ℕ
  mp_potions_used : ℕ
  sp_potions_used : ℕ
  spells_cast : ℕ
  target_x_offset : ℤ
  target_y_offset : ℤ
  spells_cast_since_target_change : ℕ
  start_time : Option ℚ
  prev_hp_percent : ℚ
  deriving DecidableEq, Repr

/-- `start_bot` (lines 360–396): early-return when already running,
otherwise reset statistics and targeting state, record the start time and
launch the loop.  The boolean reports whether initialization ran. -/
def start_bot (s : BotUIState) (now : ℚ) : BotUIState × Bool :=
  if s.running then (s, false)
  else
    ({ s with running := true, hp_potions_used := 0, mp_potions_used := 0,
              sp_potions_used := 0, spells_cast := 0, target_x_offset := 0,
              target_y_offset := 0, spells_cast_since_target_change := 0,
              start_time := some now }, true)

/-- `stop_bot` (lines 405–415): early-return when idle, otherwise clear
the running flag (statistics are left in place). -/
def stop_bot (s : BotUIState) : BotUIState :=
  if !s.running then s else { s with running := false }

/-! ## Theorems -/

/-- C1: the sensing measure `detect_percentage` never propagates a
processing error to its caller: it is a total function that returns the
pipeline's value when processing succeeds, and returns 100 whenever the
pipeline fails (malformed input, empty region, conversion failure). -/
theorem detect_percentage_fail_safe (img : Img) (lo hi : Pixel) :
    ((detectCore img lo hi).isOk = false → detect_percentage img lo hi = 100) ∧
    (∀ p : ℚ, detectCore img lo hi = Except.ok p → detect_percentage img lo hi = p) := by
  constructor
  · intro hfail
    unfold detect_percentage
    cases hc : detectCore img lo hi with
    | ok p => rw [hc] at hfail; simp [Except.isOk, Except.toBool] at hfail
    | error e => rfl
  · intro p hok
    unfold detect_percentage
    rw [hok]

/-- Witness for C1: the empty image (an unreadable region) makes the
pipeline fail, and the measure reports 100. -/
theorem detect_percentage_fail_safe_witness :
    detect_percentage [] HEALTH_COLOR_RANGE.1 HEALTH_COLOR_RANGE.2 = 100 :=
  (detect_percentage_fail_safe [] HEALTH_COLOR_RANGE.1 HEALTH_COLOR_RANGE.2).1 (by decide)

/-- C5: a bar whose region is unset is reported as 100% and, because every
threshold is at most 99, never causes a potion-key press (the cooldown
timestamp is left untouched). -/
theorem unconfigured_bar_inert (img : Option Img) (lo hi : Pixel)
    (threshold now last cooldown : ℚ) (hthr : threshold ≤ 99) :
    barTick false img lo hi threshold now last cooldown = (100, false, last) := by
  have hp : barPercent false img lo hi = 100 := by cases img <;> rfl
  unfold barTick
  rw [hp, if_neg]
  rintro ⟨h1, -⟩
  linarith

/-- Witness for C5: an unconfigured bar with threshold 50 at an arbitrary
tick reads 100 and does not fire. -/
theorem unconfigured_bar_inert_witness :
    barTick false none (0, 0, 0) (0, 0, 0) 50 10 0 3 = (100, false, 0) :=
  unconfigured_bar_inert none (0, 0, 0) (0, 0, 0) 50 10 0 3 (by norm_num)

/-- C9: `start_bot` on a running controller is a no-op (so two consecutive
starts perform initialization exactly once), and `stop_bot` on an idle
controller modifies no state. -/
theorem start_stop_no_reentry (s : BotUIState) (n1 n2 : ℚ) :
    (s.running = true → start_bot s n1 = (s, false)) ∧
    start_bot (start_bot s n1).1 n2 = ((start_bot s n1).1, false) ∧
    (s.running = false → stop_bot s = s) := by
  refine ⟨fun h => by simp [start_bot, h], ?_, fun h => by simp [stop_bot, h]⟩
  by_cases h : s.running
  · simp [start_bot, h]
  · simp [start_bot, h]

/-- Witness for C9: a concrete idle controller state, started twice and
stopped while idle. -/
theorem start_stop_no_reentry_witness :
    start_bot (start_bot ⟨false, 1, 2, 3, 4, 5, 6, 7, none, 42⟩ 100).1 200 =
      ((start_bot ⟨false, 1, 2, 3, 4, 5, 6, 7, none, 42⟩ 100).1, false) ∧
    stop_bot ⟨false, 1, 2, 3, 4, 5, 6, 7, none, 42⟩ =
      ⟨false, 1, 2, 3, 4, 5, 6, 7, none, 42⟩ := by
  have h := start_stop_no_reentry ⟨false, 1, 2, 3, 4, 5, 6, 7, none, 42⟩ 100 200
  exact ⟨h.2.1, h.2.2 rfl⟩

/-- Unfolding equation for `fires` on a cons cell. -/
theorem fires_cons (g : CooldownGate) (t : ℚ) (ts : List ℚ) :
    fires g (t :: ts) =
      if g.cooldown < t - g.last then t :: fires { g with last := t } ts
      else fires g ts := by
  by_cases h : g.cooldown < t - g.last
  · simp [fires, tryTrigger, h]
  · simp [fires, tryTrigger, h]

/-- Every fire time exceeds the gate's incoming timestamp by more than the
cooldown (for a nonnegative cooldown). -/
theorem fires_mem_gt (c : ℚ) (hc : 0 ≤ c) :
    ∀ (ts : List ℚ) (last : ℚ), ∀ x ∈ fires ⟨c, last⟩ ts, c < x - last := by
  intro ts
  induction ts with
  | nil => intro last x hx; simp [fires] at hx
  | cons t ts ih =>
    intro last x hx
    rw [fires_cons] at hx
    by_cases h : c < t - last
    · rw [if_pos h] at hx
      rcases List.mem_cons.mp hx with rfl | hx'
      · exact h
      · have hx2 : c < x - t := ih t x hx'
        linarith
    · rw [if_neg h] at hx
      exact ih last x hx

/-- Any two fire times of one gate differ by more than the cooldown. -/
theorem fires_pairwise (c : ℚ) (hc : 0 ≤ c) :
    ∀ (ts : List ℚ) (last : ℚ),
      (fires ⟨c, last⟩ ts).Pairwise (fun a b => c < b - a) := by
  intro ts
  induction ts with
  | nil => intro last; simp [fires]
  | cons t ts ih =>
    intro last
    rw [fires_cons]
    by_cases h : c < t - last
    · rw [if_pos h]
      exact List.pairwise_cons.mpr ⟨fun x hx => fires_mem_gt c hc ts t x hx, ih t⟩
    · rw [if_neg h]
      exact ih last

/-- C3: the cooldown gate fires at time `now` iff `now - last > cooldown`
(strictly); the code represents the never-triggered state by `last = 0`,
which therefore permits whenever `now > cooldown` (always true for epoch
timestamps); a successful trigger records `last = now`; and over any
sequence of call times the gate never fires twice within `cooldown` of
each other. -/
theorem cooldown_gate_contract (c last now : ℚ) (ts : List ℚ) (hc : 0 ≤ c) :
    ((tryTrigger ⟨c, last⟩ now).1 = true ↔ c < now - last) ∧
    (last = 0 → c < now → (tryTrigger ⟨c, last⟩ now).1 = true) ∧
    ((tryTrigger ⟨c, last⟩ now).1 = true →
      (tryTrigger ⟨c, last⟩ now).2.last = now) ∧
    (fires ⟨c, last⟩ ts).Pairwise (fun a b => c < b - a) := by
  refine ⟨?_, ?_, ?_, fires_pairwise c hc ts last⟩
  · unfold tryTrigger
    split <;> simp_all
  · intro h0 hn
    unfold tryTrigger
    rw [if_pos]
    simpa [h0] using hn
  · intro hfire
    unfold tryTrigger at hfire ⊢
    split at hfire <;> simp_all

/-- Witness for C3: a 3-second gate, called at times 1, 2, 10, 11 and 20,
fires at the never-triggered state for `now = 10` and its fire times are
pairwise more than 3 apart. -/
theorem cooldown_gate_contract_witness :
    (tryTrigger ⟨3, 0⟩ 10).1 = true ∧
    (fires ⟨3, 0⟩ [1, 2, 10, 11, 20]).Pairwise (fun a b => (3 : ℚ) < b - a) := by
  have h := cooldown_gate_contract 3 0 10 [1, 2, 10, 11, 20] (by norm_num)
  exact ⟨h.2.1 rfl (by norm_num), h.2.2.2⟩

/-- Characterization of a set change flag, shared by the hysteresis
theorems. -/
theorem has_value_changed_eq_true {p n t : ℚ} (h : t ≤ |p - n|) :
    has_value_changed p n t = true := by
  simpa [has_value_changed] using h

/-- Characterization of a clear change flag, shared by the hysteresis
theorems. -/
theorem has_value_changed_eq_false {p n t : ℚ} (h : |p - n| < t) :
    has_value_changed p n t = false := by
  simp only [has_value_changed, decide_eq_false_iff_not, not_le]
  exact h

/-- C6 counterexample: the claim that a below-0.5 reading keeps the
previously reported value *for that resource* fails.  With previous values
(50, 50, 50) and raw readings (49, 50.2, 50), the mana change 0.2 is below
the 0.5 hysteresis threshold, yet because the health reading changed the
stored mana value is overwritten with 50.2 rather than retained. -/
theorem hysteresis_retention_counterexample :
    has_value_changed 50 (251 / 5) (1 / 2) = false ∧
    (loopTick ⟨50, 50, 50⟩ ⟨49, 251 / 5, 50⟩ ⟨50, 50, 50⟩ ⟨0, 0, 0⟩ 10 3).1.mp =
      251 / 5 ∧
    (251 / 5 : ℚ) ≠ 50 := by
  have hmp : has_value_changed 50 (251 / 5) (1 / 2) = false :=
    has_value_changed_eq_false (by rw [abs_sub_lt_iff]; constructor <;> norm_num)
  have hhp : has_value_changed 50 49 (1 / 2) = true :=
    has_value_changed_eq_true (le_abs.mpr (Or.inl (by norm_num)))
  refine ⟨hmp, ?_, by norm_num⟩
  simp only [loopTick, monitorTick, hhp, Bool.true_or, if_true]

/-- C6 amended: a reading is flagged as changed iff it moved by at least
0.5 points; the stored previous values are retained only when *no* resource
changed, and are all overwritten with the raw readings as soon as *any*
resource changed; the potion trigger decisions depend only on the raw
readings, never on the stored previous values. -/
theorem hysteresis_reporting_contract (prev news thresholds lasts : Readings)
    (now cooldown p n : ℚ) :
    (has_value_changed p n (1 / 2) = true ↔ 1 / 2 ≤ |n - p|) ∧
    ((has_value_changed prev.hp news.hp (1 / 2) = false ∧
      has_value_changed prev.mp news.mp (1 / 2) = false ∧
      has_value_changed prev.sp news.sp (1 / 2) = false) →
      (loopTick prev news thresholds lasts now cooldown).1 = prev) ∧
    ((has_value_changed prev.hp news.hp (1 / 2) = true ∨
      has_value_changed prev.mp news.mp (1 / 2) = true ∨
      has_value_changed prev.sp news.sp (1 / 2) = true) →
      (loopTick prev news thresholds lasts now cooldown).1 = news) ∧
    (∀ prev' : Readings,
      (loopTick prev news thresholds lasts now cooldown).2.2 =
      (loopTick prev' news thresholds lasts now cooldown).2.2) := by
  refine ⟨?_, ?_, ?_, fun prev' => rfl⟩
  · unfold has_value_changed
    rw [decide_eq_true_iff, abs_sub_comm]
  · rintro ⟨h1, h2, h3⟩
    simp only [loopTick, monitorTick, h1, h2, h3, Bool.or_self, Bool.false_eq_true,
      if_false]
  · intro h
    rcases h with h | h | h <;>
      simp only [loopTick, monitorTick, h, Bool.true_or, Bool.or_true,
        Bool.false_eq_true, if_true]

/-- Witness for C6 amended: with previous values (50, 50, 50) and raw
readings (50.1, 50.2, 49.9) no resource changed, so the stored values are
retained. -/
theorem hysteresis_reporting_contract_witness :
    (loopTick ⟨50, 50, 50⟩ ⟨501 / 10, 251 / 5, 499 / 10⟩ ⟨50, 50, 50⟩ ⟨0, 0, 0⟩
      10 3).1 = ⟨50, 50, 50⟩ :=
  (hysteresis_reporting_contract ⟨50, 50, 50⟩ ⟨501 / 10, 251 / 5, 499 / 10⟩
    ⟨50, 50, 50⟩ ⟨0, 0, 0⟩ 10 3 0 0).2.1
    ⟨has_value_changed_eq_false (by rw [abs_sub_lt_iff]; constructor <;> norm_num),
     has_value_changed_eq_false (by rw [abs_sub_lt_iff]; constructor <;> norm_num),
     has_value_changed_eq_false (by rw [abs_sub_lt_iff]; constructor <;> norm_num)⟩

/-- C10 counterexample: for the zone (0, 5)–(10, 20), whose `x1`
coordinate is 0 (touching the screen's left edge), loading with no saved
points leaves the point set empty — but `get_random_target` does *not*
fall back to a fresh uniform point from the rectangle: the same
zero-coordinate truthiness guard blocks the fallback, and no point at all
is returned (here with in-rectangle fallback draws `rx = 3`, `ry = 7`). -/
theorem zero_coordinate_zone_counterexample :
    (configure_from_saved initZone 0 5 10 20 none (fun _ => (1, 0, 1))).target_points
      = [] ∧
    get_random_target
      (configure_from_saved initZone 0 5 10 20 none (fun _ => (1, 0, 1))) 0 3 7
      = none := by decide

/-- C10 amended: a zone failing the truthiness guard (any coordinate unset
or equal to 0) is left untouched by `generate_target_points`, and
`get_random_target` on an empty point set returns no point for it; the
fresh uniform fallback draw is returned only when the point set is empty
and all four coordinates are nonzero. -/
theorem zero_coordinate_zone_behavior (s : TargetZone) (draws : ℕ → ℚ × ℚ × ℚ)
    (choice : ℕ) (rx ry : ℤ) :
    (coordsSet s = false →
      generate_target_points s draws = s ∧
      (s.target_points = [] → get_random_target s choice rx ry = none)) ∧
    (s.target_points = [] → coordsSet s = true →
      get_random_target s choice rx ry = some (rx, ry)) := by
  constructor
  · intro h
    refine ⟨by unfold generate_target_points; simp [h], fun hp => ?_⟩
    unfold get_random_target
    simp [h, hp]
  · intro hp hc
    unfold get_random_target
    simp [hp, hc]

/-- Witness for C10 amended: the freshly built selector has falsy
coordinates and an empty point set, so generation is skipped and no target
is produced; a zone with nonzero coordinates and an empty point set
returns the fallback draw. -/
theorem zero_coordinate_zone_behavior_witness :
    generate_target_points initZone (fun _ => (1, 0, 1)) = initZone ∧
    get_random_target initZone 0 3 7 = none ∧
    get_random_target ⟨some 1, some 5, some 10, some 20, true, [], 8⟩ 0 3 7 =
      some (3, 7) := by
  have h1 := zero_coordinate_zone_behavior initZone (fun _ => (1, 0, 1)) 0 3 7
  have h2 := zero_coordinate_zone_behavior
    ⟨some 1, some 5, some 10, some 20, true, [], 8⟩ (fun _ => (1, 0, 1)) 0 3 7
  exact ⟨(h1.1 (by decide)).1, (h1.1 (by decide)).2 rfl, h2.2 rfl (by decide)⟩

/-- C4 counterexample: `configure_from_saved` installs a provided non-empty
saved point list verbatim, with no containment check: configuring the zone
(1, 1)–(10, 10) with saved point (100, 100) stores a point whose
x-coordinate 100 lies outside the rectangle (100 > 10). -/
theorem zone_point_invariant_counterexample :
    (100, 100) ∈ (configure_from_saved initZone 1 1 10 10 (some [(100, 100)])
      (fun _ => (1, 0, 1))).target_points ∧
    ¬((100 : ℤ) ≤ 10) := by decide

/-- C4 amended: every point produced by `generate_target_points` lies
within the configured rectangle, for any normalized rectangle with nonzero
coordinates and any point count and random draws; points installed verbatim
by `configure_from_saved` from a saved list carry no such guarantee. -/
theorem generated_points_in_rectangle (s : TargetZone) (draws : ℕ → ℚ × ℚ × ℚ)
    (a b c d : ℤ) (hx1 : s.x1 = some a) (hy1 : s.y1 = some b)
    (hx2 : s.x2 = some c) (hy2 : s.y2 = some d)
    (ha : a ≠ 0) (hb : b ≠ 0) (hcz : c ≠ 0) (hd : d ≠ 0)
    (hac : a ≤ c) (hbd : b ≤ d) :
    ∀ q ∈ (generate_target_points s draws).target_points,
      a ≤ q.1 ∧ q.1 ≤ c ∧ b ≤ q.2 ∧ q.2 ≤ d := by
  intro q hq
  have hcs : coordsSet s = true := by
    simp [coordsSet, truthy, hx1, hy1, hx2, hy2, ha, hb, hcz, hd]
  unfold generate_target_points at hq
  rw [hcs] at hq
  simp only [Bool.not_true, Bool.false_eq_true, if_false, hx1, hy1, hx2, hy2,
    Option.getD_some] at hq
  obtain ⟨i, hi, rfl⟩ := List.mem_map.mp hq
  exact ⟨le_max_left _ _, max_le hac (min_le_right _ _),
    le_max_left _ _, max_le hbd (min_le_right _ _)⟩

/-- Witness for C4 amended: for the zone (1, 1)–(10, 10) with zero draws,
the generated point (5, 5) lies within the rectangle. -/
theorem generated_points_in_rectangle_witness :
    (1 : ℤ) ≤ 5 ∧ (5 : ℤ) ≤ 10 ∧ (1 : ℤ) ≤ 5 ∧ (5 : ℤ) ≤ 10 := by
  have hmem : ((5 : ℤ), (5 : ℤ)) ∈ (generate_target_points
      ⟨some 1, some 1, some 10, some 10, true, [], 8⟩
      (fun _ => (0, 0, 0))).target_points := by
    have hcs : coordsSet ⟨some 1, some 1, some 10, some 10, true, [], 8⟩ = true := by
      decide
    unfold generate_target_points
    rw [hcs]
    simp only [Bool.not_true, Bool.false_eq_true, if_false, Option.getD_some]
    refine List.mem_map.mpr ⟨0, by decide, ?_⟩
    have h11 : Int.fdiv 11 2 = 5 := by decide
    norm_num [pyInt, h11]
  exact generated_points_in_rectangle
    ⟨some 1, some 1, some 10, some 10, true, [], 8⟩ (fun _ => (0, 0, 0))
    1 1 10 10 rfl rfl rfl rfl (by decide) (by decide) (by decide) (by decide)
    (by decide) (by decide) (5, 5) hmem

/-- Python `int()` truncation never increases the magnitude of its
argument. -/
theorem pyInt_abs_le (q : ℚ) : |(pyInt q : ℚ)| ≤ |q| := by
  unfold pyInt
  by_cases h : 0 ≤ q
  · rw [if_pos h]
    have h1 : (0 : ℚ) ≤ (⌊q⌋ : ℚ) := by exact_mod_cast Int.floor_nonneg.mpr h
    rw [abs_of_nonneg h, abs_of_nonneg h1]
    exact Int.floor_le q
  · push_neg at h
    rw [if_neg (not_le.mpr h)]
    have h0 : ⌈q⌉ ≤ (0 : ℤ) := Int.ceil_le.mpr (by exact_mod_cast h.le)
    have h1 : (⌈q⌉ : ℚ) ≤ 0 := by exact_mod_cast h0
    rw [abs_of_nonpos h.le, abs_of_nonpos h1]
    exact neg_le_neg (Int.le_ceil q)

/-- C7: ring sampling draws a distance `radius * sqrt(u)` that never
exceeds the radius, the truncated integer offset stays within the disk of
that radius, and the absolute target — window centre plus offset, clamped
per axis — always lies within the game-window rectangle.  The random
draws enter as `sqrtU = sqrt(u)` with `u ∈ [0, 1]` and the angle's cosine
and sine. -/
theorem ring_targeting_bounded (radius sqrtU cosA sinA : ℚ) (gx1 gy1 gx2 gy2 : ℤ)
    (hr : 0 ≤ radius) (hu0 : 0 ≤ sqrtU) (hu1 : sqrtU ≤ 1)
    (htrig : cosA ^ 2 + sinA ^ 2 = 1) (hgx : gx1 ≤ gx2) (hgy : gy1 ≤ gy2) :
    radius * sqrtU ≤ radius ∧
    ((generate_random_target_offsets radius sqrtU cosA sinA).1 : ℚ) ^ 2 +
      ((generate_random_target_offsets radius sqrtU cosA sinA).2 : ℚ) ^ 2 ≤
      radius ^ 2 ∧
    gx1 ≤ (ringTarget gx1 gy1 gx2 gy2
        (generate_random_target_offsets radius sqrtU cosA sinA).1
        (generate_random_target_offsets radius sqrtU cosA sinA).2).1 ∧
    (ringTarget gx1 gy1 gx2 gy2
        (generate_random_target_offsets radius sqrtU cosA sinA).1
        (generate_random_target_offsets radius sqrtU cosA sinA).2).1 ≤ gx2 ∧
    gy1 ≤ (ringTarget gx1 gy1 gx2 gy2
        (generate_random_target_offsets radius sqrtU cosA sinA).1
        (generate_random_target_offsets radius sqrtU cosA sinA).2).2 ∧
    (ringTarget gx1 gy1 gx2 gy2
        (generate_random_target_offsets radius sqrtU cosA sinA).1
        (generate_random_target_offsets radius sqrtU cosA sinA).2).2 ≤ gy2 := by
  have hdr : radius * sqrtU ≤ radius := mul_le_of_le_one_right hr hu1
  have hd0 : 0 ≤ radius * sqrtU := mul_nonneg hr hu0
  refine ⟨hdr, ?_, ?_, ?_, ?_, ?_⟩
  · show ((pyInt (radius * sqrtU * cosA) : ℚ)) ^ 2 +
      ((pyInt (radius * sqrtU * sinA) : ℚ)) ^ 2 ≤ radius ^ 2
    have h1 := pyInt_abs_le (radius * sqrtU * cosA)
    have h2 := pyInt_abs_le (radius * sqrtU * sinA)
    have e1 : ((pyInt (radius * sqrtU * cosA) : ℚ)) ^ 2 ≤
        (radius * sqrtU * cosA) ^ 2 := by
      have h := pow_le_pow_left₀ (abs_nonneg _) h1 2
      rwa [sq_abs, sq_abs] at h
    have e2 : ((pyInt (radius * sqrtU * sinA) : ℚ)) ^ 2 ≤
        (radius * sqrtU * sinA) ^ 2 := by
      have h := pow_le_pow_left₀ (abs_nonneg _) h2 2
      rwa [sq_abs, sq_abs] at h
    have e3 : (radius * sqrtU * cosA) ^ 2 + (radius * sqrtU * sinA) ^ 2 =
        (radius * sqrtU) ^ 2 := by
      have h : (radius * sqrtU * cosA) ^ 2 + (radius * sqrtU * sinA) ^ 2 =
          (radius * sqrtU) ^ 2 * (cosA ^ 2 + sinA ^ 2) := by ring
      rw [h, htrig, mul_one]
    have e4 : (radius * sqrtU) ^ 2 ≤ radius ^ 2 := pow_le_pow_left₀ hd0 hdr 2
    linarith
  · exact le_max_left _ _
  · exact max_le hgx (min_le_right _ _)
  · exact le_max_left _ _
  · exact max_le hgy (min_le_right _ _)

/-- Witness for C7: radius 100, draws `sqrtU = 1`, angle 0, game window
(0, 0)–(800, 600). -/
theorem ring_targeting_bounded_witness :
    (100 : ℚ) * 1 ≤ 100 ∧
    ((generate_random_target_offsets 100 1 1 0).1 : ℚ) ^ 2 +
      ((generate_random_target_offsets 100 1 1 0).2 : ℚ) ^ 2 ≤ (100 : ℚ) ^ 2 ∧
    (0 : ℤ) ≤ (ringTarget 0 0 800 600 (generate_random_target_offsets 100 1 1 0).1
        (generate_random_target_offsets 100 1 1 0).2).1 ∧
    (ringTarget 0 0 800 600 (generate_random_target_offsets 100 1 1 0).1
        (generate_random_target_offsets 100 1 1 0).2).1 ≤ 800 ∧
    (0 : ℤ) ≤ (ringTarget 0 0 800 600 (generate_random_target_offsets 100 1 1 0).1
        (generate_random_target_offsets 100 1 1 0).2).2 ∧
    (ringTarget 0 0 800 600 (generate_random_target_offsets 100 1 1 0).1
        (generate_random_target_offsets 100 1 1 0).2).2 ≤ 600 :=
  ring_targeting_bounded 100 1 1 0 0 0 800 600 (by norm_num) (by norm_num)
    (by norm_num) (by norm_num) (by norm_num) (by norm_num)

/-- Unfolding equation for one live iteration of the loop skeleton. -/
theorem bot_loop_run_succ (r : ℕ → Bool) (t : ℕ → Except String Unit) (f i : ℕ) :
    bot_loop_run r t (f + 1) i =
      if r i then
        ((match t i with
          | Except.ok _ => (⟨false, false⟩ : IterEffect)
          | Except.error _ => ⟨true, true⟩) :: (bot_loop_run r t f (i + 1)).1,
         (bot_loop_run r t f (i + 1)).2)
      else ([], true) := rfl

/-- The loop skeleton reports an exit only after observing a false running
flag. -/
theorem bot_loop_run_exit (r : ℕ → Bool) (t : ℕ → Except String Unit) :
    ∀ f i, (bot_loop_run r t f i).2 = true → ∃ j, r j = false := by
  intro f
  induction f with
  | zero => intro i h; simp [bot_loop_run] at h
  | succ f ih =>
    intro i h
    rw [bot_loop_run_succ] at h
    by_cases hr : r i
    · rw [if_pos hr] at h
      exact ih (i + 1) h
    · exact ⟨i, by simpa using hr⟩

/-- With the running flag always set, the loop performs every scheduled
iteration, regardless of tick outcomes. -/
theorem bot_loop_run_length (r : ℕ → Bool) (t : ℕ → Except String Unit)
    (hall : ∀ j, r j = true) : ∀ f i, (bot_loop_run r t f i).1.length = f := by
  intro f
  induction f with
  | zero => intro i; rfl
  | succ f ih =>
    intro i
    rw [bot_loop_run_succ, if_pos (hall i)]
    simpa using ih (i + 1)

/-- Every executed iteration whose tick raised is recorded as caught,
logged and backed off. -/
theorem bot_loop_run_effect (r : ℕ → Bool) (t : ℕ → Except String Unit) :
    ∀ f i k, k < (bot_loop_run r t f i).1.length → (t (i + k)).isOk = false →
      (bot_loop_run r t f i).1.getD k ⟨false, false⟩ = ⟨true, true⟩ := by
  intro f
  induction f with
  | zero => intro i k hk _; simp [bot_loop_run] at hk
  | succ f ih =>
    intro i k hk herr
    rw [bot_loop_run_succ] at hk ⊢
    by_cases hr : r i
    · rw [if_pos hr] at hk ⊢
      cases k with
      | zero =>
        cases ht : t i with
        | ok u => rw [Nat.add_zero, ht] at herr; simp [Except.isOk, Except.toBool] at herr
        | error e => simp [ht]
      | succ k =>
        have hk' : k < (bot_loop_run r t f (i + 1)).1.length := by
          simpa using Nat.lt_of_succ_lt_succ (by simpa using hk)
        have herr' : (t (i + 1 + k)).isOk = false := by
          rw [show i + 1 + k = i + (k + 1) by omega]
          exact herr
        simpa using ih (i + 1) k hk' herr'
    · rw [if_neg hr] at hk
      simp at hk

/-- C8: the loop catches every tick failure at the tick boundary — an exit
is reported only after the running flag is observed false; while the flag
stays set the loop performs every scheduled iteration no matter how ticks
fail; and each iteration whose tick raised produces a caught/logged effect
with the 1-second backoff, after which the loop simply continues. -/
theorem loop_failure_containment (running : ℕ → Bool)
    (tick : ℕ → Except String Unit) (fuel i : ℕ) :
    ((bot_loop_run running tick fuel i).2 = true → ∃ j, running j = false) ∧
    ((∀ j, running j = true) →
      (bot_loop_run running tick fuel i).1.length = fuel) ∧
    (∀ k, k < (bot_loop_run running tick fuel i).1.length →
      (tick (i + k)).isOk = false →
      (bot_loop_run running tick fuel i).1.getD k ⟨false, false⟩ = ⟨true, true⟩) :=
  ⟨bot_loop_run_exit running tick fuel i,
   fun hall => bot_loop_run_length running tick hall fuel i,
   bot_loop_run_effect running tick fuel i⟩

/-- Witness for C8: a run whose second tick raises records a caught and
backed-off iteration there, and a run with the flag always set executes
all five scheduled iterations although a tick raises. -/
theorem loop_failure_containment_witness :
    (bot_loop_run (fun j => decide (j < 3))
        (fun j => if j = 1 then Except.error "boom" else Except.ok ()) 10 0).1.getD
        1 ⟨false, false⟩ = ⟨true, true⟩ ∧
    (bot_loop_run (fun _ => true)
        (fun j => if j = 1 then Except.error "boom" else Except.ok ()) 5 0).1.length
      = 5 := by
  constructor
  · exact (loop_failure_containment (fun j => decide (j < 3))
      (fun j => if j = 1 then Except.error "boom" else Except.ok ()) 10 0).2.2 1
      (by decide) (by decide)
  · exact (loop_failure_containment (fun _ => true)
      (fun j => if j = 1 then Except.error "boom" else Except.ok ()) 5 0).2.1
      (fun j => rfl)

/-- An all-false row has no counted pixel. -/
theorem rowCount_eq_zero {row : List Bool} (hall : ∀ b ∈ row, b = false) :
    rowCount row = 0 := by
  unfold rowCount
  rw [List.length_eq_zero, List.filter_eq_nil_iff]
  intro b hb
  simp [hall b hb]

/-- Indexing an all-false row yields `false` at every position. -/
theorem getD_false_of_all_false {row : List Bool} (hall : ∀ b ∈ row, b = false)
    (j : ℕ) : row.getD j false = false := by
  rw [List.getD_eq_getElem?_getD]
  by_cases hj : j < row.length
  · rw [List.getElem?_eq_getElem hj]
    exact hall _ (List.getElem_mem hj)
  · rw [List.getElem?_eq_none (Nat.le_of_not_lt hj)]
    rfl

/-- A row index holding a set pixel is within the mask's height. -/
theorem rowHasPixel_lt {mask : List (List Bool)} {i : ℕ}
    (h : rowHasPixel mask i = true) : i < mask.length := by
  by_contra hge
  unfold rowHasPixel at h
  rw [decide_eq_true_iff] at h
  rw [List.getD_eq_getElem?_getD, List.getElem?_eq_none (Nat.le_of_not_lt hge)]
    at h
  simp [rowCount] at h

/-- A column index holding a set pixel exhibits a row in which that index
is a set entry. -/
theorem colHasPixel_elim {mask : List (List Bool)} {j : ℕ}
    (h : colHasPixel mask j = true) :
    ∃ row ∈ mask, row.getD j false = true := by
  unfold colHasPixel colCount at h
  rw [decide_eq_true_iff, List.length_pos] at h
  obtain ⟨row, hrow⟩ := List.exists_mem_of_ne_nil _ h
  rw [List.mem_filter] at hrow
  exact ⟨row, hrow.1, hrow.2⟩

/-- A set entry's index is within its row's length. -/
theorem getD_true_lt {row : List Bool} {j : ℕ} (h : row.getD j false = true) :
    j < row.length := by
  by_contra hge
  rw [List.getD_eq_getElem?_getD, List.getElem?_eq_none (Nat.le_of_not_lt hge)]
    at h
  simp at h

/-- C2: on a well-formed h×w binary mask (the mask after the 3×3 open/close
morphology), the measure classifies the bar as vertical exactly when
`h > 1.5·w`; a mask with no set pixel measures 0; a vertical mask whose
topmost set row is `t` measures `100·(h − t)/h`; a horizontal mask whose
rightmost set column is `c` measures `100·c/w`. -/
theorem measure_formula (mask : List (List Bool)) (h w : ℕ)
    (hlen : mask.length = h) (hpos : 0 < h)
    (hrect : ∀ row ∈ mask, row.length = w) :
    (is_vertical h w = true ↔ 1.5 * (w : ℚ) < (h : ℚ)) ∧
    ((∀ row ∈ mask, ∀ b ∈ row, b = false) → maskPercentage mask = 0) ∧
    (∀ t : ℕ, is_vertical h w = true → rowHasPixel mask t = true →
      (∀ i, i < t → rowHasPixel mask i = false) →
      maskPercentage mask = 100 * ((h : ℚ) - (t : ℚ)) / (h : ℚ)) ∧
    (∀ c : ℕ, is_vertical h w = false → colHasPixel mask c = true →
      (∀ j, c < j → colHasPixel mask j = false) →
      maskPercentage mask = 100 * (c : ℚ) / (w : ℚ)) := by
  subst hlen
  have hwidth : (mask.headD []).length = w := by
    cases mask with
    | nil => simp at hpos
    | cons r rs => exact hrect r (List.mem_cons_self r rs)
  refine ⟨?_, ?_, ?_, ?_⟩
  · unfold is_vertical
    rw [decide_eq_true_iff, mul_comm]
  · intro hall
    have hrow : ∀ i, rowHasPixel mask i = false := by
      intro i
      unfold rowHasPixel
      rw [decide_eq_false_iff_not]
      by_cases hi : i < mask.length
      · rw [List.getD_eq_getElem?_getD, List.getElem?_eq_getElem hi]
        rw [Option.getD_some, rowCount_eq_zero (hall _ (List.getElem_mem hi))]
        omega
      · rw [List.getD_eq_getElem?_getD, List.getElem?_eq_none (Nat.le_of_not_lt hi)]
        simp [rowCount]
    have hcol : ∀ j, colHasPixel mask j = false := by
      intro j
      unfold colHasPixel colCount
      rw [decide_eq_false_iff_not]
      have hnil : mask.filter (fun row => row.getD j false) = [] := by
        rw [List.filter_eq_nil_iff]
        intro row hr
        simp only [Bool.not_eq_true]
        exact getD_false_of_all_false (hall row hr) j
      rw [hnil]
      simp
    have hfr : (List.range mask.length).filter (fun i => rowHasPixel mask i) = [] := by
      rw [List.filter_eq_nil_iff]
      intro i _
      simp [hrow i]
    have hfc : (List.range (mask.headD []).length).filter
        (fun j => colHasPixel mask j) = [] := by
      rw [List.filter_eq_nil_iff]
      intro j _
      simp [hcol j]
    simp only [maskPercentage]
    split
    · rw [hfr]; rfl
    · rw [hfc]; rfl
  · intro t hv ht hmin
    have htlt : t < mask.length := rowHasPixel_lt ht
    have hmins : ((List.range mask.length).filter
        (fun i => rowHasPixel mask i)).min? = some t := by
      rw [List.min?_eq_some_iff']
      refine ⟨List.mem_filter.mpr ⟨List.mem_range.mpr htlt, ht⟩, ?_⟩
      intro b hb
      rw [List.mem_filter] at hb
      by_contra hbt
      push_neg at hbt
      rw [hmin b hbt] at hb
      simp at hb
    simp only [maskPercentage, hwidth, hv, if_true, hmins]
  · intro c hv hc hmax
    obtain ⟨row, hrowm, hset⟩ := colHasPixel_elim hc
    have hclt : c < w := by
      rw [← hrect row hrowm]
      exact getD_true_lt hset
    have hmaxs : ((List.range w).filter
        (fun j => colHasPixel mask j)).max? = some c := by
      rw [List.max?_eq_some_iff']
      refine ⟨List.mem_filter.mpr ⟨List.mem_range.mpr hclt, hc⟩, ?_⟩
      intro b hb
      rw [List.mem_filter] at hb
      by_contra hbc
      push_neg at hbc
      rw [hmax b hbc] at hb
      simp at hb
    simp only [maskPercentage, hwidth, hv, Bool.false_eq_true, if_false, hmaxs]

/-- Witness for C2: the 3×1 vertical mask with set pixels in rows 1 and 2
measures `100·(3 − 1)/3`, and the 1×4 horizontal mask with rightmost set
column 2 measures `100·2/4`. -/
theorem measure_formula_witness :
    maskPercentage [[false], [true], [true]] = 100 * ((3 : ℚ) - 1) / 3 ∧
    maskPercentage [[true, false, true, false]] = 100 * (2 : ℚ) / 4 := by
  constructor
  · exact (measure_formula [[false], [true], [true]] 3 1 rfl (by norm_num)
      (by decide)).2.2.1 1
      (by unfold is_vertical; rw [decide_eq_true_iff]; norm_num) (by decide)
      (fun i hi => by interval_cases i; decide)
  · exact (measure_formula [[true, false, true, false]] 1 4 rfl (by norm_num)
      (by decide)).2.2.2 2
      (by unfold is_vertical; rw [decide_eq_false_iff_not, not_lt]; norm_num)
      (by decide)
      (fun j hj => by
        by_cases h4 : j < 4
        · have h3 : j = 3 := by omega
          subst h3
          decide
        · unfold colHasPixel colCount
          rw [decide_eq_false_iff_not]
          have hnil : ([[true, false, true, false]] : List (List Bool)).filter
              (fun row => row.getD j false) = [] := by
            rw [List.filter_eq_nil_iff]
            intro row hr
            rcases List.mem_singleton.mp hr with rfl
            rw [List.getD_eq_getElem?_getD,
              List.getElem?_eq_none (by simpa using Nat.le_of_not_lt h4)]
            simp
          rw [hnil]
          simp)

end PristonBot
